import Mathlib

/-!
# Verification of the place-recognition dataset core

Shallow embedding of the pair-mining / batching subsystem of the
`open_place_recognition` repository:

* `BasePlaceRecognitionDataset._build_indexes` and `__init__`
  (`src/opr/datasets/base.py`),
* `ITLPCampus._build_indexes`, `_build_masks`, `_load_pc`,
  `_remove_dynamic_points`, `__getitem__` and `_collate_data_dict`
  (`src/opr/datasets/itlp.py`),
* `make_collate_fn.collate_fn` (`opr/datasets/dataloader_factory.py`).

Real-number quantities (UTM coordinates, thresholds, pixel coordinates) are
modelled exactly over `ℚ`.  The sources compare Euclidean distances
`d = √d2` against thresholds; since `√` is not rational we encode each
comparison square-root-free: for `d2 ≥ 0`, `√d2 < t ↔ 0 ≤ t ∧ d2 < t²` and
`√d2 > t ↔ t < 0 ∨ t² < d2`.  Fallible Python code (exceptions) is modelled
with `Except`/`Option` results.
-/

namespace Opr

/-- `√d2 < t`, encoded without square roots (valid for `d2 ≥ 0`, which holds
for every squared distance we apply it to). -/
def sqrtLt (d2 t : ℚ) : Prop := 0 ≤ t ∧ d2 < t ^ 2

/-- `√d2 > t`, encoded without square roots (valid for `d2 ≥ 0`). -/
def sqrtGt (d2 t : ℚ) : Prop := t < 0 ∨ t ^ 2 < d2

instance (d2 t : ℚ) : Decidable (sqrtLt d2 t) :=
  inferInstanceAs (Decidable (0 ≤ t ∧ d2 < t ^ 2))

instance (d2 t : ℚ) : Decidable (sqrtGt d2 t) :=
  inferInstanceAs (Decidable (t < 0 ∨ t ^ 2 < d2))

/-- A 2-D UTM position, one row of the `northing`/`easting` columns used by
`BasePlaceRecognitionDataset._build_indexes`. -/
structure Point2 where
  northing : ℚ
  easting : ℚ
deriving DecidableEq

instance : Inhabited Point2 := ⟨⟨0, 0⟩⟩

/-- Squared Euclidean distance between two 2-D positions (`scipy` `cdist`
computes `√sqDist2`; we keep the square, see `sqrtLt`/`sqrtGt`). -/
def sqDist2 (a b : Point2) : ℚ :=
  (a.northing - b.northing) ^ 2 + (a.easting - b.easting) ^ 2

/-- Entry `[i, j]` of `positives_mask = (distances > 0) & (distances < positive_threshold)`
in `BasePlaceRecognitionDataset._build_indexes`. -/
def positives_cond2 (pts : List Point2) (p : ℚ) (i j : ℕ) : Prop :=
  sqrtGt (sqDist2 (pts.getD i default) (pts.getD j default)) 0 ∧
    sqrtLt (sqDist2 (pts.getD i default) (pts.getD j default)) p

/-- Entry `[i, j]` of `nonnegatives_mask = distances < negative_threshold`
in `BasePlaceRecognitionDataset._build_indexes`. -/
def nonnegatives_cond2 (pts : List Point2) (q : ℚ) (i j : ℕ) : Prop :=
  sqrtLt (sqDist2 (pts.getD i default) (pts.getD j default)) q

instance (pts : List Point2) (p : ℚ) (i j : ℕ) : Decidable (positives_cond2 pts p i j) :=
  inferInstanceAs (Decidable (_ ∧ _))

instance (pts : List Point2) (q : ℚ) (i j : ℕ) : Decidable (nonnegatives_cond2 pts q i j) :=
  inferInstanceAs (Decidable (sqrtLt _ _))

/-- `BasePlaceRecognitionDataset._build_indexes`: the row-wise `np.where`
lists `(positive_indices, nonnegative_indices)` obtained by thresholding the
pairwise distance matrix. -/
def build_indexes (pts : List Point2) (p q : ℚ) : List (List ℕ) × List (List ℕ) :=
  ((List.range pts.length).map fun i =>
      (List.range pts.length).filter fun j => decide (positives_cond2 pts p i j),
   (List.range pts.length).map fun i =>
      (List.range pts.length).filter fun j => decide (nonnegatives_cond2 pts q i j))

/-- A 3-D position, one row of the `tx`/`ty`/`tz` columns used by
`ITLPCampus._build_indexes` and `_build_masks`; also a 3-D LiDAR point. -/
structure Point3 where
  x : ℚ
  y : ℚ
  z : ℚ
deriving DecidableEq

instance : Inhabited Point3 := ⟨⟨0, 0, 0⟩⟩

/-- Squared Euclidean distance between 3-D positions (`torch.cdist` computes
its square root). -/
def sqDist3 (a b : Point3) : ℚ :=
  (a.x - b.x) ^ 2 + (a.y - b.y) ^ 2 + (a.z - b.z) ^ 2

/-- Entry `[i, j]` of `positives_mask = (distances > 0) & (distances < positive_threshold)`
in `ITLPCampus._build_masks` / `_build_indexes`. -/
def positives_cond3 (pts : List Point3) (p : ℚ) (i j : ℕ) : Prop :=
  sqrtGt (sqDist3 (pts.getD i default) (pts.getD j default)) 0 ∧
    sqrtLt (sqDist3 (pts.getD i default) (pts.getD j default)) p

/-- Entry `[i, j]` of `negatives_mask = distances > negative_threshold`
in `ITLPCampus._build_masks`. -/
def negatives_cond3 (pts : List Point3) (q : ℚ) (i j : ℕ) : Prop :=
  sqrtGt (sqDist3 (pts.getD i default) (pts.getD j default)) q

/-- Entry `[i, j]` of `nonnegatives_mask = distances < negative_threshold`
in `ITLPCampus._build_indexes`. -/
def nonnegatives_cond3 (pts : List Point3) (q : ℚ) (i j : ℕ) : Prop :=
  sqrtLt (sqDist3 (pts.getD i default) (pts.getD j default)) q

instance (pts : List Point3) (p : ℚ) (i j : ℕ) : Decidable (positives_cond3 pts p i j) :=
  inferInstanceAs (Decidable (_ ∧ _))

instance (pts : List Point3) (q : ℚ) (i j : ℕ) : Decidable (negatives_cond3 pts q i j) :=
  inferInstanceAs (Decidable (sqrtGt _ _))

instance (pts : List Point3) (q : ℚ) (i j : ℕ) : Decidable (nonnegatives_cond3 pts q i j) :=
  inferInstanceAs (Decidable (sqrtLt _ _))

/-- A raw `(x, y, z, intensity)` float32 record of a LiDAR `.bin` file. -/
structure Point4 where
  x : ℚ
  y : ℚ
  z : ℚ
  intensity : ℚ
deriving DecidableEq

/-- `[:, :-1]`: drop the intensity column. -/
def dropIntensity (p : Point4) : Point3 := ⟨p.x, p.y, p.z⟩

/-- `np.all(np.logical_and(-100 <= pc, pc <= 100), axis=1)`: every coordinate
lies in the closed interval `[-100, 100]`. -/
def inRange100 (p : Point3) : Prop :=
  -100 ≤ p.x ∧ p.x ≤ 100 ∧ -100 ≤ p.y ∧ p.y ≤ 100 ∧ -100 ≤ p.z ∧ p.z ≤ 100

instance (p : Point3) : Decidable (inRange100 p) :=
  inferInstanceAs (Decidable (_ ∧ _))

/-- Squared Euclidean norm of a point (`np.linalg.norm` computes its root). -/
def sqNorm3 (p : Point3) : ℚ := p.x ^ 2 + p.y ^ 2 + p.z ^ 2

/-- `ITLPCampus._load_pc`: drop intensity, keep points with all coordinates in
`[-100, 100]`, and — when `max_point_distance` is set — keep only points with
Euclidean norm strictly below it. -/
def load_pc (raw : List Point4) (maxPointDistance : Option ℚ) : List Point3 :=
  let pc := (raw.map dropIntensity).filter fun p => decide (inRange100 p)
  match maxPointDistance with
  | none => pc
  | some d => pc.filter fun p => decide (sqrtLt (sqNorm3 p) d)

/-- The top three rows of a 4×4 homogeneous lidar→camera transform.  The
source multiplies the full 4×4 matrix by `[x, y, z, 1]` and keeps the first
three components (`[:, :3]`), which is exactly an affine map. -/
structure Extrinsic where
  r11 : ℚ
  r12 : ℚ
  r13 : ℚ
  t1 : ℚ
  r21 : ℚ
  r22 : ℚ
  r23 : ℚ
  t2 : ℚ
  r31 : ℚ
  r32 : ℚ
  r33 : ℚ
  t3 : ℚ
deriving DecidableEq

/-- `camera_values = lidar2sensor @ [x, y, z, 1]`, first three components. -/
def toCamera (E : Extrinsic) (p : Point3) : Point3 :=
  ⟨E.r11 * p.x + E.r12 * p.y + E.r13 * p.z + E.t1,
   E.r21 * p.x + E.r22 * p.y + E.r23 * p.z + E.t2,
   E.r31 * p.x + E.r32 * p.y + E.r33 * p.z + E.t3⟩

/-- A pinhole camera matrix `[[fx, 0, cx], [0, fy, cy], [0, 0, 1]]` (the
skew entries of both ITLP camera matrices are zero). -/
structure Intrinsic where
  fx : ℚ
  cx : ℚ
  fy : ℚ
  cy : ℚ
deriving DecidableEq

/-- `cv2.projectPoints` with zero rotation, zero translation and zero
distortion (both ITLP distortion vectors are all zeros): plain pinhole
projection `u = fx·x/z + cx`, `v = fy·y/z + cy` of a camera-frame point.
`z = 0` yields a non-finite (inf/NaN) pixel in the source, which never
passes its validity mask; we model it as `none`. -/
def project (K : Intrinsic) (c : Point3) : Option (ℚ × ℚ) :=
  if c.z = 0 then none
  else some (K.fx * c.x / c.z + K.cx, K.fy * c.y / c.z + K.cy)

/-- A single-channel semantic label image, indexed `[row, column]` exactly
like the `semantic_map` numpy array of `_remove_dynamic_points`. -/
abbrev SemMap := List (List ℤ)

/-- `self._ade20k_dynamic_idx = [12]`. -/
def ade20k_dynamic_idx : List ℤ := [12]

/-- `set(np.unique(semantic_map)).intersection(set(self._ade20k_dynamic_idx))`
is non-empty: the semantic image contains at least one dynamic-class pixel. -/
def mapHasDynamic (m : SemMap) : Bool :=
  m.any fun row => row.any fun l => ade20k_dynamic_idx.contains l

/-- `semantic_map[r, c]` for the non-negative indices produced by the
validity mask.  Out-of-bounds access (`r`/`c` beyond the image shape) is the
numpy `IndexError`, modelled as `none`.  (Negative numpy indices would wrap,
but the filter only ever indexes with `floor` of coordinates that passed the
`>= 0` bounds check, so they cannot occur; we return `none` there too.) -/
def lookupLabel (m : SemMap) (r c : ℤ) : Option ℤ :=
  if 0 ≤ r ∧ 0 ≤ c then
    (m.get? r.toNat).bind fun row => row.get? c.toNat
  else none

/-- The fate of a single point inside the dynamic branch of
`_remove_dynamic_points`:

* `some true` — the point passed the validity mask (`projected pixel not
  NaN`, inside `[0,1280)×[0,720)`, camera-frame depth `z > 0`) and its
  semantic label at `floor(pixel)` is a dynamic class: the point is removed;
* `some false` — the point is kept (invalid, or label not dynamic);
* `none` — the point passed the validity mask but
  `semantic_map[floor(v), floor(u)]` is out of bounds for the semantic image
  actually indexed: the numpy fancy-indexing `IndexError`. -/
def pointFate (m : SemMap) (E : Extrinsic) (K : Intrinsic) (p : Point3) : Option Bool :=
  match project K (toCamera E p) with
  | none => some false
  | some (u, v) =>
    if 0 ≤ u ∧ u < 1280 ∧ 0 ≤ v ∧ v < 720 ∧ 0 < (toCamera E p).z then
      match lookupLabel m ⌊v⌋ ⌊u⌋ with
      | none => none
      | some l => some (ade20k_dynamic_idx.contains l)
    else some false

/-- `ITLPCampus._remove_dynamic_points`.  If the semantic image contains no
dynamic-class pixel the input cloud is returned unchanged; otherwise every
valid point's label is looked up (all lookups happen in one numpy
fancy-indexing expression, so a single out-of-bounds index raises
`IndexError`, i.e. `none`) and the points marked dynamic are dropped.
(The source computes the projection before the dynamic-class check; the
projection is pure and total for finite inputs, so hoisting the check in
front of it does not change the result.) -/
def remove_dynamic_points (pc : List Point3) (m : SemMap) (E : Extrinsic) (K : Intrinsic) :
    Option (List Point3) :=
  if mapHasDynamic m then
    match pc.mapM (pointFate m E K) with
    | none => none
    | some fates => some (((pc.zip fates).filter fun pf => !pf.2).map Prod.fst)
  else some pc

/-- `self.lidar2front` (top three rows; the fourth is `[0, 0, 0, 1]`). -/
def lidar2front : Extrinsic :=
  ⟨0.01509615, -0.99976457, -0.01558544, 0.04632156,
   0.00871086, 0.01571812, -0.99983852, -0.13278588,
   0.9998481, 0.01495794, 0.0089461, -0.06092749⟩

/-- `self.front_matrix` (fx, cx, fy, cy entries; skew is zero). -/
def front_matrix : Intrinsic :=
  ⟨683.6199340820312, 615.1160278320312, 683.6199340820312, 345.32354736328125⟩

/-- `self.lidar2back` (top three rows). -/
def lidar2back : Extrinsic :=
  ⟨-0.0150409674, 0.999886421, 0.000955906151, 0.0182703304,
   -0.0130440106, 0.000759716299, -0.999914635, -0.141787545,
   -0.999801792, -0.0150521522, 0.0130311022, -0.0672336358⟩

/-- `self.back_matrix` (fx, cx, fy, cy entries; skew is zero). -/
def back_matrix : Intrinsic :=
  ⟨910.4178466796875, 648.44140625, 910.4166870117188, 354.0118408203125⟩

/-- The exceptions `BasePlaceRecognitionDataset.__init__` can raise:
`FileNotFoundError` for a missing dataset root or subset csv, `ValueError`
for an invalid subset name or a negative threshold. -/
inductive InitError where
  | datasetNotFound
  | csvNotFound
  | invalidSubset
  | invalidArgument
deriving DecidableEq

/-- The state a successfully constructed `BasePlaceRecognitionDataset`
carries: the position table and the two spatial index lists. -/
structure BaseState where
  positions : List Point2
  positivesIndex : List (List ℕ)
  nonnegativeIndex : List (List ℕ)
deriving DecidableEq

/-- `BasePlaceRecognitionDataset.__init__`, with the filesystem abstracted to
two booleans (`dataset_root.exists()`, `subset_csv_path.exists()`) and the
parsed csv to the position list.  The checks run in source order: root
existence, subset validity, csv existence, `positive_threshold < 0`,
`negative_threshold < 0`, and only then `_build_indexes`. -/
def baseInit (rootExists : Bool) (subset : String) (csvExists : Bool)
    (positions : List Point2) (p q : ℚ) : Except InitError BaseState :=
  if !rootExists then Except.error InitError.datasetNotFound
  else if subset ∉ ["train", "val", "test"] then Except.error InitError.invalidSubset
  else if !csvExists then Except.error InitError.csvNotFound
  else if p < 0 then Except.error InitError.invalidArgument
  else if q < 0 then Except.error InitError.invalidArgument
  else
    let idx := build_indexes positions p q
    Except.ok ⟨positions, idx.1, idx.2⟩

/-- A transformed camera image, `channels × height × width`
(`DefaultImageTransform` output). -/
abbrev Image := List (List (List ℚ))

/-- One step of `torch.where(mask == index, 0, image)`: the `1×H×W` mask is
broadcast over the image channels, zeroing every pixel whose label equals
`index`. -/
def where_mask_zero (m : SemMap) (idx : ℤ) (img : Image) : Image :=
  img.map fun channel =>
    (channel.zip m).map fun rows =>
      (rows.1.zip rows.2).map fun vl => if vl.2 = idx then 0 else vl.1

/-- `for index in self._ade20k_dynamic_idx: data[...] = torch.where(...)`. -/
def blackout_dynamic (m : SemMap) (img : Image) : Image :=
  ade20k_dynamic_idx.foldl (fun im idx => where_mask_zero m idx im) img

/-- A value stored in the `__getitem__` data dictionary.  Tensor payloads are
carried structurally (the pose vector, the image grid, the label image, the
point list); `feats` records `torch.ones_like(pc[:, :1])` by its row count;
`frame` is a pandas DataFrame of auxiliary label rows. -/
inductive Val where
  | idx (n : ℕ)
  | pose (v : List ℚ)
  | img (im : Image)
  | mask (m : SemMap)
  | cloud (pc : List Point3)
  | feats (n : ℕ)
  | frame (rows : List String)
deriving DecidableEq

/-- The constructor flags of `ITLPCampus` that `__getitem__` branches on. -/
structure ItlpCfg where
  sensors : List String
  loadSemantics : Bool
  loadTextLabels : Bool
  loadTextDescriptions : Bool
  loadArucoLabels : Bool
  excludeDynamic : Bool
  indoor : Bool
deriving DecidableEq

/-- The per-index raw records `__getitem__` reads from disk, after the
per-modality transforms (`image_transform`, `semantic_transform`), keyed by
the csv row: pose columns, camera images, semantic masks, the raw LiDAR
cloud, and the auxiliary text/ArUco DataFrame rows filtered by timestamp. -/
structure RawData where
  idx : ℕ
  pose : List ℚ
  imageFront : Image
  imageBack : Image
  maskFront : SemMap
  maskBack : SemMap
  rawPc : List Point4
  textLabelsFront : List String
  textLabelsBack : List String
  textDescFront : List String
  textDescBack : List String
  arucoFront : List String
  arucoBack : List String
deriving DecidableEq

/-- `self.exclude_dynamic_classes and self.indoor`, the guard of every
dynamic-class exclusion in `__getitem__`. -/
def dynFlag (cfg : ItlpCfg) : Bool := cfg.excludeDynamic && cfg.indoor

/-- The `"front_cam"` block of `__getitem__`: the (possibly blacked-out)
image, then the semantic mask, then the auxiliary DataFrame entries, in
dictionary insertion order. -/
def frontEntries (cfg : ItlpCfg) (d : RawData) : List (String × Val) :=
  if "front_cam" ∈ cfg.sensors then
    [("image_front_cam",
      Val.img (if cfg.loadSemantics && dynFlag cfg
        then blackout_dynamic d.maskFront d.imageFront else d.imageFront))]
    ++ (if cfg.loadSemantics then [("mask_front_cam", Val.mask d.maskFront)] else [])
    ++ (if cfg.loadTextLabels then [("text_labels_front_cam_df", Val.frame d.textLabelsFront)] else [])
    ++ (if cfg.loadTextDescriptions then [("text_description_front_cam_df", Val.frame d.textDescFront)] else [])
    ++ (if cfg.loadArucoLabels then [("aruco_labels_front_cam_df", Val.frame d.arucoFront)] else [])
  else []

/-- The `"back_cam"` block of `__getitem__`. -/
def backEntries (cfg : ItlpCfg) (d : RawData) : List (String × Val) :=
  if "back_cam" ∈ cfg.sensors then
    [("image_back_cam",
      Val.img (if cfg.loadSemantics && dynFlag cfg
        then blackout_dynamic d.maskBack d.imageBack else d.imageBack))]
    ++ (if cfg.loadSemantics then [("mask_back_cam", Val.mask d.maskBack)] else [])
    ++ (if cfg.loadTextLabels then [("text_labels_back_cam_df", Val.frame d.textLabelsBack)] else [])
    ++ (if cfg.loadTextDescriptions then [("text_description_back_cam_df", Val.frame d.textDescBack)] else [])
    ++ (if cfg.loadArucoLabels then [("aruco_labels_back_cam_df", Val.frame d.arucoBack)] else [])
  else []

/-- One `pc = self._remove_dynamic_points(pc, data["mask_..._cam"], ...)`
call.  When `load_semantics` is off the mask key was never inserted in the
data dictionary, so the subscript raises `KeyError`; an out-of-bounds
semantic lookup raises `IndexError`. -/
def removeStep (cfg : ItlpCfg) (m : SemMap) (E : Extrinsic) (K : Intrinsic)
    (pc : List Point3) : Except String (List Point3) :=
  if cfg.loadSemantics then
    match remove_dynamic_points pc m E K with
    | some pc2 => Except.ok pc2
    | none => Except.error "IndexError"
  else Except.error "KeyError"

/-- The point cloud produced by the `"lidar"` block of `__getitem__`:
`_load_pc`, then — only under `exclude_dynamic_classes and indoor` — dynamic
point removal against the back then the front camera. -/
def lidarPc (cfg : ItlpCfg) (maxDist : Option ℚ) (d : RawData) :
    Except String (List Point3) :=
  let pc0 := load_pc d.rawPc maxDist
  if dynFlag cfg then do
    let pc1 ← if "back_cam" ∈ cfg.sensors
      then removeStep cfg d.maskBack lidar2back back_matrix pc0
      else Except.ok pc0
    let pc2 ← if "front_cam" ∈ cfg.sensors
      then removeStep cfg d.maskFront lidar2front front_matrix pc1
      else Except.ok pc1
    Except.ok pc2
  else Except.ok pc0

/-- The `"lidar"` block of `__getitem__`: the cloud tensor and its
`ones_like` feature column. -/
def lidarEntries (cfg : ItlpCfg) (maxDist : Option ℚ) (d : RawData) :
    Except String (List (String × Val)) :=
  if "lidar" ∈ cfg.sensors then
    (lidarPc cfg maxDist d).map fun pc =>
      [("pointcloud_lidar_coords", Val.cloud pc),
       ("pointcloud_lidar_feats", Val.feats pc.length)]
  else Except.ok []

/-- `ITLPCampus.__getitem__`: the data dictionary in insertion order —
`idx`, `pose`, the front-camera block, the back-camera block, the lidar
block. -/
def getitem (cfg : ItlpCfg) (maxDist : Option ℚ) (d : RawData) :
    Except String (List (String × Val)) :=
  (lidarEntries cfg maxDist d).map fun les =>
    [("idx", Val.idx d.idx), ("pose", Val.pose d.pose)]
    ++ frontEntries cfg d ++ backEntries cfg d ++ les

/-- The keys of the front-camera block, as a function of the flags alone. -/
def frontKeys (cfg : ItlpCfg) : List String :=
  if "front_cam" ∈ cfg.sensors then
    ["image_front_cam"]
    ++ (if cfg.loadSemantics then ["mask_front_cam"] else [])
    ++ (if cfg.loadTextLabels then ["text_labels_front_cam_df"] else [])
    ++ (if cfg.loadTextDescriptions then ["text_description_front_cam_df"] else [])
    ++ (if cfg.loadArucoLabels then ["aruco_labels_front_cam_df"] else [])
  else []

/-- The keys of the back-camera block. -/
def backKeys (cfg : ItlpCfg) : List String :=
  if "back_cam" ∈ cfg.sensors then
    ["image_back_cam"]
    ++ (if cfg.loadSemantics then ["mask_back_cam"] else [])
    ++ (if cfg.loadTextLabels then ["text_labels_back_cam_df"] else [])
    ++ (if cfg.loadTextDescriptions then ["text_description_back_cam_df"] else [])
    ++ (if cfg.loadArucoLabels then ["aruco_labels_back_cam_df"] else [])
  else []

/-- The keys of the lidar block. -/
def lidarKeys (cfg : ItlpCfg) : List String :=
  if "lidar" ∈ cfg.sensors then ["pointcloud_lidar_coords", "pointcloud_lidar_feats"] else []

/-- The key set (in insertion order) of every sample a given `ITLPCampus`
configuration produces. -/
def sample_keys (cfg : ItlpCfg) : List String :=
  ["idx", "pose"] ++ frontKeys cfg ++ backKeys cfg ++ lidarKeys cfg

/-- The keys of a sample dictionary, in insertion order. -/
def keysOf (s : List (String × Val)) : List String := s.map Prod.fst

/-- `e[k]` on a sample dictionary: the value stored under `k`, if any. -/
def findVal (s : List (String × Val)) (k : String) : Option Val :=
  (s.find? fun e => e.1 == k).map Prod.snd

/-- The exceptions batch collation can raise: `IndexError` (`data_list[0]`
on an empty list), `KeyError` (`e[k]` on a sample missing `k`),
`ValueError(f"Unknown data key: ...")`, and `NotImplementedError` for
multistage batching. -/
inductive CollateError where
  | indexError
  | keyError (k : String)
  | unknownKey (k : String)
  | notImplemented
deriving DecidableEq

/-- `[e[k] for e in data_list]`: collect the value under `k` from every
sample, raising `KeyError` if one of them lacks it. -/
def collectAll (dataList : List (List (String × Val))) (k : String) :
    Except CollateError (List Val) :=
  dataList.mapM fun s =>
    match findVal s k with
    | some v => Except.ok v
    | none => Except.error (CollateError.keyError k)

/-- Character-list prefix test (kernel-computable replacement for
`str.startswith`). -/
def listPref : List Char → List Char → Bool
  | [], _ => true
  | _ :: _, [] => false
  | a :: as, b :: bs => a == b && listPref as bs

/-- `k.startswith(pre)`. -/
def keyStarts (pre k : String) : Bool := listPref pre.data k.data

/-- The data keys recognized by the `elif` chain of
`ITLPCampus._collate_data_dict`. -/
def recognizedKey (k : String) : Bool :=
  k == "idx" || k == "pose" || keyStarts "image_" k || keyStarts "mask_" k ||
    k == "pointcloud_lidar_coords" || k == "pointcloud_lidar_feats"

/-- The `for data_key in data_list[0].keys()` loop of
`ITLPCampus._collate_data_dict`, accumulating result entries in insertion
order.  Tensor numerics (stacking, the shared set transform, Minkowski
quantization of the clouds) are abstracted to collecting the per-sample
values; the key dispatch and error behaviour follow the source line by
line. -/
def collate_keys (dataList : List (List (String × Val))) :
    List String → List (String × List Val) → Except CollateError (List (String × List Val))
  | [], acc => Except.ok acc
  | k :: ks, acc =>
    if k = "idx" then collate_keys dataList ks acc
    else if k = "pose" then
      match collectAll dataList "pose" with
      | Except.error e => Except.error e
      | Except.ok vs => collate_keys dataList ks (acc ++ [("poses", vs)])
    else if keyStarts "image_" k then
      match collectAll dataList k with
      | Except.error e => Except.error e
      | Except.ok vs => collate_keys dataList ks (acc ++ [("images_" ++ k.drop 6, vs)])
    else if keyStarts "mask_" k then
      match collectAll dataList k with
      | Except.error e => Except.error e
      | Except.ok vs => collate_keys dataList ks (acc ++ [("masks_" ++ k.drop 5, vs)])
    else if k = "pointcloud_lidar_coords" then
      match collectAll dataList "pointcloud_lidar_coords",
            collectAll dataList "pointcloud_lidar_feats" with
      | Except.error e, _ => Except.error e
      | Except.ok _, Except.error e => Except.error e
      | Except.ok cs, Except.ok fs =>
        collate_keys dataList ks
          (acc ++ [("pointclouds_lidar_coords", cs), ("pointclouds_lidar_feats", fs)])
    else if k = "pointcloud_lidar_feats" then collate_keys dataList ks acc
    else Except.error (CollateError.unknownKey k)

/-- `ITLPCampus._collate_data_dict` (and `ITLPCampus.collate_fn`, which just
forwards to it): stack the `idx` values of every sample, then process the
keys of the FIRST sample through the `elif` chain. -/
def collate_data_dict (dataList : List (List (String × Val))) :
    Except CollateError (List (String × List Val)) :=
  match dataList with
  | [] => Except.error CollateError.indexError
  | first :: _ =>
    match collectAll dataList "idx" with
    | Except.error e => Except.error e
    | Except.ok idxs =>
      (collate_keys dataList (keysOf first) []).map fun rest => ("idxs", idxs) :: rest

/-- Did collation raise the unknown-data-key `ValueError`? -/
def isUnknownKeyErr {α : Type} : Except CollateError α → Bool
  | Except.error (CollateError.unknownKey _) => true
  | _ => false

/-- The camera names hard-coded in `make_collate_fn.collate_fn`. -/
def camNames : List String :=
  ["stereo_centre", "mono_rear", "mono_left", "mono_right",
   "cam0", "cam1", "cam2", "cam3", "cam4", "cam5"]

/-- The camera names of the `text_emb_cam{n}` loop (`n` in `1..5`). -/
def textEmbCamNames : List String := ["cam1", "cam2", "cam3", "cam4", "cam5"]

/-- The optional modality keys `make_collate_fn.collate_fn` gathers before
the batch-split branch, in source order: cloud, image, the per-camera image
and semantic keys (interleaved per camera), semantic, range image, the text
embeddings. -/
def factoryGatherKeys : List String :=
  ["cloud", "image"]
  ++ (camNames.flatMap fun c => ["image_" ++ c, "semantic_" ++ c])
  ++ ["semantic", "range_image", "text_emb_back", "text_emb_front"]
  ++ (textEmbCamNames.map fun c => "text_emb_" ++ c)

/-- `if k in data_list[0]: ... = [e[k] for e in data_list]`: gather the
values under `k` when the first sample has the key, else gather nothing. -/
def optCollect (dataList : List (List (String × Val))) (first : List (String × Val))
    (k : String) : Except CollateError (Option (List Val)) :=
  if k ∈ keysOf first then (collectAll dataList k).map Option.some
  else Except.ok none

/-- The result-dictionary names the gathered modalities are stored under in
the non-split branch (`"cloud"` produces both `coordinates` and
`features`). -/
def factoryRenames (k : String) : List String :=
  if k = "cloud" then ["coordinates", "features"]
  else if k = "image" then ["images"]
  else if keyStarts "image_" k then ["images_" ++ k.drop 6]
  else if keyStarts "semantic_" k then ["semantics_" ++ k.drop 9]
  else if k = "semantic" then ["semantics"]
  else if k = "range_image" then ["range_images"]
  else if k = "text_emb_back" then ["back_embs"]
  else if k = "text_emb_front" then ["front_embs"]
  else [k]

/-- The result dictionary of the non-split branch, in insertion order, ending
with `utms`.  Sparse quantization and stacking are abstracted to the
collected per-sample values. -/
def assembleResult (gathered : List (String × Option (List Val))) (utms : List Val) :
    List (String × List Val) :=
  (gathered.flatMap fun kg =>
    match kg.2 with
    | none => []
    | some vs => (factoryRenames kg.1).map fun nk => (nk, vs))
  ++ [("utms", utms)]

/-- Modelled from the spec: `opr.utils.in_sorted_array` (not under `src/`)
tests membership of an element in a sorted index array
(`mask[a,b] = original_index[b] ∈ positives(original_index[a])`). -/
def in_sorted_array (e : ℕ) (arr : List ℕ) : Bool := arr.contains e

/-- `indices = [int(e["idx"]) for e in data_list]`. -/
def collectIdx (dataList : List (List (String × Val))) : Except CollateError (List ℕ) :=
  dataList.mapM fun s =>
    match findVal s "idx" with
    | some (Val.idx n) => Except.ok n
    | _ => Except.error (CollateError.keyError "idx")

/-- The `(result, positives_mask, negatives_mask)` triple returned by
`make_collate_fn.collate_fn`. -/
structure FactoryBatch where
  result : List (String × List Val)
  positivesMask : List (List Bool)
  negativesMask : List (List Bool)
deriving DecidableEq

/-- `make_collate_fn(dataset, batch_split_size).collate_fn(data_list)` from
`opr/datasets/dataloader_factory.py`.  `getPos`/`getNonneg` stand for
`dataset.get_positives`/`dataset.get_nonnegatives` (their class,
`opr.datasets.base.BaseDataset`, is not under `src/`; modelled from the
spec as the per-anchor sorted positive/non-negative index arrays).  The
optional modality gathers run first, then the `utm` stack; a
`batch_split_size` other than `None`/`0` then raises
`NotImplementedError("Multistaged batch training not yet implemented")`
before any mask is computed. -/
def factory_collate (getPos getNonneg : ℕ → List ℕ) (batchSplitSize : Option ℤ)
    (dataList : List (List (String × Val))) : Except CollateError FactoryBatch :=
  match dataList with
  | [] => Except.error CollateError.indexError
  | first :: _ =>
    match factoryGatherKeys.mapM (optCollect dataList first) with
    | Except.error e => Except.error e
    | Except.ok gathered =>
      match collectAll dataList "utm" with
      | Except.error e => Except.error e
      | Except.ok utms =>
        if batchSplitSize = none ∨ batchSplitSize = some 0 then
          match collectIdx dataList with
          | Except.error e => Except.error e
          | Except.ok indices =>
            Except.ok
              ⟨assembleResult (factoryGatherKeys.zip gathered) utms,
               indices.map fun label => indices.map fun e => in_sorted_array e (getPos label),
               indices.map fun label => indices.map fun e => !in_sorted_array e (getNonneg label)⟩
        else Except.error CollateError.notImplemented

/-- The value stored under key `k` of a successfully loaded sample (`none`
when `__getitem__` raised or the key is absent). -/
def getitemVal (cfg : ItlpCfg) (maxDist : Option ℚ) (d : RawData) (k : String) : Option Val :=
  match getitem cfg maxDist d with
  | Except.ok s => findVal s k
  | Except.error _ => none

/-- Two UTM positions one metre apart (concrete test data). -/
def pts2ex : List Point2 := [⟨0, 0⟩, ⟨1, 0⟩]

/-- Two poses exactly three metres apart (concrete test data). -/
def cpts3 : List Point3 := [⟨0, 0, 0⟩, ⟨3, 0, 0⟩]

/-- A one-record raw scan: the point `(1, 2, 3)` with intensity `9`. -/
def raw4ex : List Point4 := [⟨1, 2, 3, 9⟩]

/-- A semantic image with a single non-dynamic pixel. -/
def mask_nodyn : SemMap := [[0]]

/-- Modelled from the spec: `DefaultSemanticTransform(resize=(320, 192))`
(module `opr.datasets.augmentations`, not under `src/`) resizes every
semantic mask to 192 rows × 320 columns, "consistent with the paired
image's geometry".  This is such a transformed mask whose top-left pixel
carries the dynamic class 12 (e.g. a detected person). -/
def mask_resized : SemMap :=
  (12 :: List.replicate 319 0) :: List.replicate 191 (List.replicate 320 0)

/-- A single LiDAR point ten metres straight ahead of the sensor. -/
def pc3fail : List Point3 := [⟨10, 0, 0⟩]

/-- A two-sample batch whose SECOND sample carries the unrecognized key
`"bogus"` (the first sample only has `"idx"`). -/
def cex7 : List (List (String × Val)) :=
  [[("idx", Val.idx 0)], [("idx", Val.idx 1), ("bogus", Val.idx 2)]]

/-- A one-sample batch whose first sample carries the unrecognized key
`"bogus"`. -/
def c7batch : List (List (String × Val)) := [[("idx", Val.idx 0), ("bogus", Val.idx 1)]]

/-- A one-sample batch with only the `"utm"` key, for the factory collate. -/
def c8batch : List (List (String × Val)) := [[("utm", Val.pose [])]]

/-- Front camera + lidar, semantics on, dynamic exclusion REQUESTED but
`indoor = False` (the outdoor default). -/
def c9cfg : ItlpCfg :=
  { sensors := ["front_cam", "lidar"], loadSemantics := true, loadTextLabels := false,
    loadTextDescriptions := false, loadArucoLabels := false,
    excludeDynamic := true, indoor := false }

/-- Front camera + lidar with detected-text labels loaded. -/
def c10cfg : ItlpCfg :=
  { sensors := ["front_cam", "lidar"], loadSemantics := false, loadTextLabels := true,
    loadTextDescriptions := false, loadArucoLabels := false,
    excludeDynamic := false, indoor := false }

/-- A minimal raw record (empty tensors everywhere). -/
def rawEmpty : RawData :=
  { idx := 0, pose := [], imageFront := [], imageBack := [], maskFront := [],
    maskBack := [], rawPc := [], textLabelsFront := [], textLabelsBack := [],
    textDescFront := [], textDescBack := [], arucoFront := [], arucoBack := [] }

/-- The sample `__getitem__` produces from `rawEmpty` under `c10cfg`. -/
def c10sample : List (String × Val) :=
  [("idx", Val.idx 0), ("pose", Val.pose []), ("image_front_cam", Val.img []),
   ("text_labels_front_cam_df", Val.frame []),
   ("pointcloud_lidar_coords", Val.cloud []), ("pointcloud_lidar_feats", Val.feats 0)]

/-! ## Helper lemmas -/

theorem sqDist2_self (a : Point2) : sqDist2 a a = 0 := by
  simp [sqDist2]

theorem getD_map_range {α : Type} (n : ℕ) (f : ℕ → List α) (i : ℕ) :
    ((List.range n).map f).getD i [] = if i < n then f i else [] := by
  by_cases hi : i < n
  · rw [List.getD_eq_getElem?_getD, List.getElem?_map, List.getElem?_range hi]
    simp [hi]
  · rw [List.getD_eq_getElem?_getD, List.getElem?_eq_none]
    · simp [hi]
    · simpa using le_of_not_lt hi

theorem mem_positives_index {pts : List Point2} {p q : ℚ} {i j : ℕ} :
    j ∈ (build_indexes pts p q).1.getD i [] ↔
      i < pts.length ∧ j < pts.length ∧ positives_cond2 pts p i j := by
  rw [build_indexes]
  dsimp only
  rw [getD_map_range]
  by_cases hi : i < pts.length
  · simp [hi, List.mem_filter, List.mem_range, decide_eq_true_iff]
  · simp [hi]

theorem mem_nonnegatives_index {pts : List Point2} {p q : ℚ} {i j : ℕ} :
    j ∈ (build_indexes pts p q).2.getD i [] ↔
      i < pts.length ∧ j < pts.length ∧ nonnegatives_cond2 pts q i j := by
  rw [build_indexes]
  dsimp only
  rw [getD_map_range]
  by_cases hi : i < pts.length
  · simp [hi, List.mem_filter, List.mem_range, decide_eq_true_iff]
  · simp [hi]

/-! ## C1 -/

/-- **C1** (amended): for any position set and ALL thresholds (including
`p > n`), `positives(i)` built by
`BasePlaceRecognitionDataset._build_indexes` never contains `i` itself; and
whenever `positive_threshold ≤ negative_threshold` (the intended
configuration; the code does not enforce it), `positives(i)` is a subset of
`nonnegatives(i)`. -/
theorem C1_spatial_index (pts : List Point2) (p q : ℚ) (i : ℕ) :
    i ∉ (build_indexes pts p q).1.getD i [] ∧
      (p ≤ q →
        ∀ j ∈ (build_indexes pts p q).1.getD i [], j ∈ (build_indexes pts p q).2.getD i []) := by
  constructor
  · intro hmem
    rw [mem_positives_index] at hmem
    obtain ⟨-, -, hGt, -⟩ := hmem
    rw [sqDist2_self] at hGt
    rcases hGt with h | h <;> norm_num at h
  · intro hpq j hj
    rw [mem_positives_index] at hj
    obtain ⟨hi, hjl, -, hp0, hlt⟩ := hj
    rw [mem_nonnegatives_index]
    refine ⟨hi, hjl, le_trans hp0 hpq, lt_of_lt_of_le hlt ?_⟩
    exact pow_le_pow_left₀ hp0 hpq 2

/-- Witness for C1 at the two-point set `pts2ex`: with thresholds `2 ≤ 3`,
element `0` is not its own positive and its positive `1` is also among its
nonnegatives; and self-exclusion also holds with the inverted thresholds
`p = 2 > n = 1`. -/
theorem C1_spatial_index_witness :
    0 ∉ (build_indexes pts2ex 2 3).1.getD 0 [] ∧
      1 ∈ (build_indexes pts2ex 2 3).2.getD 0 [] ∧
      0 ∉ (build_indexes pts2ex 2 1).1.getD 0 [] :=
  ⟨(C1_spatial_index pts2ex 2 3 0).1,
   (C1_spatial_index pts2ex 2 3 0).2 (by norm_num) 1 (by
     rw [mem_positives_index]
     refine ⟨by simp [pts2ex], by simp [pts2ex], ?_, ?_⟩
     · right
       norm_num [pts2ex, sqDist2]
     · norm_num [pts2ex, sqDist2, sqrtLt]),
   (C1_spatial_index pts2ex 2 1 0).1⟩

/-- **C1** fails as stated: with the non-negative thresholds `p = 2 > n = 1`
(the claim quantifies over ALL `p ≥ 0`, `n ≥ 0`), element `1` lies in
`positives(0)` but not in `nonnegatives(0)`. -/
theorem C1_counterexample :
    (0:ℚ) ≤ 2 ∧ (0:ℚ) ≤ 1 ∧
      1 ∈ (build_indexes pts2ex 2 1).1.getD 0 [] ∧
      1 ∉ (build_indexes pts2ex 2 1).2.getD 0 [] := by
  refine ⟨by norm_num, by norm_num, ?_, ?_⟩
  · rw [mem_positives_index]
    refine ⟨by simp [pts2ex], by simp [pts2ex], ?_, ?_⟩
    · right
      norm_num [pts2ex, sqDist2]
    · norm_num [pts2ex, sqDist2, sqrtLt]
  · rw [mem_nonnegatives_index]
    rintro ⟨-, -, -, hlt⟩
    norm_num [pts2ex, sqDist2] at hlt

/-! ## C2 -/

/-- **C2** (amended): the `negatives_mask` built by
`ITLPCampus._build_masks` is `distance > negative_threshold` — STRICT, not
`≥`.  For a non-negative threshold it holds iff the pair is not a
nonnegative AND its distance differs from the threshold; in particular a
pair at distance exactly `negative_threshold` has `negatives_mask` FALSE
(while also being excluded from the nonnegatives). -/
theorem C2_negatives_mask_strict (pts : List Point3) (q : ℚ) (i j : ℕ) (hq : 0 ≤ q) :
    negatives_cond3 pts q i j ↔
      ¬ nonnegatives_cond3 pts q i j ∧
        sqDist3 (pts.getD i default) (pts.getD j default) ≠ q ^ 2 := by
  unfold negatives_cond3 nonnegatives_cond3 sqrtGt sqrtLt
  constructor
  · rintro (h | h)
    · exact absurd hq (not_le.mpr h)
    · exact ⟨fun hc => absurd hc.2 (not_lt.mpr (le_of_lt h)), ne_of_gt h⟩
  · rintro ⟨hn, hne⟩
    right
    push_neg at hn
    exact lt_of_le_of_ne (hn hq) (Ne.symm hne)

/-- Witness for C2 at the two poses of `cpts3` with threshold `3`. -/
theorem C2_negatives_mask_strict_witness :
    negatives_cond3 cpts3 3 0 1 ↔
      ¬ nonnegatives_cond3 cpts3 3 0 1 ∧
        sqDist3 (cpts3.getD 0 default) (cpts3.getD 1 default) ≠ 3 ^ 2 :=
  C2_negatives_mask_strict cpts3 3 0 1 (by norm_num)

/-- **C2** fails as stated: for two poses at distance exactly equal to the
(non-negative) negative threshold, `negatives_mask` is NOT the complement of
the nonnegatives relation — both are false. -/
theorem C2_counterexample :
    (0:ℚ) ≤ 3 ∧ ¬ (negatives_cond3 cpts3 3 0 1 ↔ ¬ nonnegatives_cond3 cpts3 3 0 1) := by
  refine ⟨by norm_num, ?_⟩
  have h1 : ¬ negatives_cond3 cpts3 3 0 1 := by
    rintro (h | h) <;> norm_num [cpts3, sqDist3] at h
  have h2 : ¬ nonnegatives_cond3 cpts3 3 0 1 := by
    rintro ⟨-, h⟩
    norm_num [cpts3, sqDist3] at h
  intro hiff
  exact h1 (hiff.mpr h2)

/-! ## C4 -/

/-- **C4**: `ITLPCampus._load_pc` with `max_point_distance = None` keeps
exactly the points whose coordinates all lie in `[-100, 100]` (and removes no
others — the output is a sublist of the input); with a finite
`max_point_distance = d` every surviving point additionally has Euclidean
norm strictly below `d`. -/
theorem C4_load_pc (raw : List Point4) :
    (∀ p, p ∈ load_pc raw none ↔ p ∈ raw.map dropIntensity ∧ inRange100 p) ∧
      List.Sublist (load_pc raw none) (raw.map dropIntensity) ∧
      ∀ d p, p ∈ load_pc raw (some d) → inRange100 p ∧ sqrtLt (sqNorm3 p) d := by
  refine ⟨?_, ?_, ?_⟩
  · intro p
    rw [load_pc]
    simp [List.mem_filter, decide_eq_true_iff]
  · rw [load_pc]
    exact List.filter_sublist _
  · intro d p hp
    rw [load_pc] at hp
    simp only [List.mem_filter, decide_eq_true_iff] at hp
    exact ⟨hp.1.2, hp.2⟩

/-- Witness for C4: the in-range point `(1, 2, 3)` of the one-record scan
`raw4ex` survives the `max_point_distance = 10` filter and satisfies both
range and norm bounds. -/
theorem C4_load_pc_witness :
    inRange100 ⟨1, 2, 3⟩ ∧ sqrtLt (sqNorm3 ⟨1, 2, 3⟩) 10 :=
  (C4_load_pc raw4ex).2.2 10 ⟨1, 2, 3⟩ (by
    norm_num [load_pc, raw4ex, dropIntensity, List.filter_cons, decide_eq_true_iff,
      inRange100, sqrtLt, sqNorm3])

/-! ## C5 -/

/-- **C5**: when the semantic image contains no pixel of a dynamic class,
`ITLPCampus._remove_dynamic_points` returns its input point cloud unchanged,
point for point. -/
theorem C5_pass_through (pc : List Point3) (m : SemMap) (E : Extrinsic) (K : Intrinsic)
    (h : mapHasDynamic m = false) :
    remove_dynamic_points pc m E K = some pc := by
  simp [remove_dynamic_points, h]

/-- Witness for C5: a dynamic-free one-pixel mask passes any cloud through. -/
theorem C5_pass_through_witness :
    remove_dynamic_points pc3fail mask_nodyn lidar2front front_matrix = some pc3fail :=
  C5_pass_through pc3fail mask_nodyn lidar2front front_matrix (by rfl)

/-! ## C6 -/

/-- **C6**: `BasePlaceRecognitionDataset.__init__` (same checks in
`ITLPCampus.__init__`) raises `ValueError` as soon as either threshold is
negative — before any spatial index is built — and for non-negative
thresholds the threshold checks pass and construction completes with the
built indexes. -/
theorem C6_threshold_checks (positions : List Point2) (p q : ℚ) :
    ((p < 0 ∨ q < 0) →
      baseInit true "train" true positions p q = Except.error InitError.invalidArgument) ∧
      (0 ≤ p → 0 ≤ q →
        baseInit true "train" true positions p q =
          Except.ok ⟨positions, (build_indexes positions p q).1, (build_indexes positions p q).2⟩) := by
  constructor
  · rintro (h | h)
    · simp [baseInit, h]
    · by_cases hp : p < 0
      · simp [baseInit, hp]
      · simp [baseInit, hp, h]
  · intro hp hq
    simp [baseInit, not_lt.mpr hp, not_lt.mpr hq]

/-- Witness for C6: a negative `positive_threshold` is rejected with
`ValueError`, and the defaults `10 ≤ 50` construct successfully. -/
theorem C6_threshold_checks_witness :
    baseInit true "train" true pts2ex (-1) 50 = Except.error InitError.invalidArgument ∧
      baseInit true "train" true pts2ex 10 50 =
        Except.ok ⟨pts2ex, (build_indexes pts2ex 10 50).1, (build_indexes pts2ex 10 50).2⟩ :=
  ⟨(C6_threshold_checks pts2ex (-1) 50).1 (Or.inl (by norm_num)),
   (C6_threshold_checks pts2ex 10 50).2 (by norm_num) (by norm_num)⟩

/-! ## Collation helper lemmas -/

theorem findVal_cons (e : String × Val) (l : List (String × Val)) (k : String) :
    findVal (e :: l) k = if e.1 == k then some e.2 else findVal l k := by
  by_cases h : e.1 == k <;> simp [findVal, List.find?_cons, h]

theorem findVal_isSome (l : List (String × Val)) (k : String) (h : k ∈ keysOf l) :
    ∃ v, findVal l k = some v := by
  induction l with
  | nil => simp [keysOf] at h
  | cons e l ih =>
    rw [findVal_cons]
    by_cases he : e.1 == k
    · exact ⟨e.2, by simp [he]⟩
    · rw [if_neg he]
      apply ih
      rw [keysOf, List.map_cons, List.mem_cons] at h
      rcases h with h1 | h1
      · exact absurd (by simp [h1] : e.1 == k) he
      · exact h1

theorem collectAll_ok (dataList : List (List (String × Val))) (k : String)
    (h : ∀ s ∈ dataList, k ∈ keysOf s) : ∃ vs, collectAll dataList k = Except.ok vs := by
  induction dataList with
  | nil => exact ⟨[], rfl⟩
  | cons s rest ih =>
    obtain ⟨v, hv⟩ := findVal_isSome s k (h s (by simp))
    obtain ⟨vs, hvs⟩ := ih fun t ht => h t (by simp [ht])
    refine ⟨v :: vs, ?_⟩
    rw [collectAll] at hvs ⊢
    rw [List.mapM_cons, hv, hvs]
    rfl

theorem mapM_ok_of_forall {ε α β : Type} (f : α → Except ε β) (l : List α)
    (h : ∀ a ∈ l, ∃ b, f a = Except.ok b) : ∃ bs, l.mapM f = Except.ok bs := by
  induction l with
  | nil => exact ⟨[], rfl⟩
  | cons a l ih =>
    obtain ⟨b, hb⟩ := h a (by simp)
    obtain ⟨bs, hbs⟩ := ih fun x hx => h x (by simp [hx])
    refine ⟨b :: bs, ?_⟩
    rw [List.mapM_cons, hb, hbs]
    rfl

theorem mapM_ok_mem {ε α β : Type} (f : α → Except ε β) (ds : List α) (ss : List β)
    (h : ds.mapM f = Except.ok ss) : ∀ s ∈ ss, ∃ d ∈ ds, f d = Except.ok s := by
  induction ds generalizing ss with
  | nil =>
    rw [List.mapM_nil] at h
    cases h
    simp
  | cons a l ih =>
    rw [List.mapM_cons] at h
    cases hfa : f a with
    | error e =>
      rw [hfa] at h
      cases h
    | ok b =>
      rw [hfa] at h
      cases hml : l.mapM f with
      | error e =>
        rw [hml] at h
        cases h
      | ok bs =>
        rw [hml] at h
        cases h
        intro s hs
        rcases List.mem_cons.mp hs with rfl | hmem
        · exact ⟨a, by simp, hfa⟩
        · obtain ⟨d, hd, hds⟩ := ih bs hml s hmem
          exact ⟨d, by simp [hd], hds⟩

theorem recognizedKey_false_parts {k : String} (h : recognizedKey k = false) :
    k ≠ "idx" ∧ k ≠ "pose" ∧ ¬ (keyStarts "image_" k = true) ∧
      ¬ (keyStarts "mask_" k = true) ∧ k ≠ "pointcloud_lidar_coords" ∧
      k ≠ "pointcloud_lidar_feats" := by
  rw [recognizedKey] at h
  simp only [Bool.or_eq_false_iff, beq_eq_false_iff_ne, ne_eq] at h
  obtain ⟨⟨⟨⟨⟨h1, h2⟩, h3⟩, h4⟩, h5⟩, h6⟩ := h
  exact ⟨h1, h2, by simp [h3], by simp [h4], h5, h6⟩

theorem collate_keys_unknown (dataList : List (List (String × Val))) (ks : List String)
    (hall : ∀ k ∈ ks, recognizedKey k = true → ∀ s ∈ dataList, k ∈ keysOf s)
    (hfeats : "pointcloud_lidar_coords" ∈ ks →
      ∀ s ∈ dataList, "pointcloud_lidar_feats" ∈ keysOf s)
    (hex : ∃ k ∈ ks, recognizedKey k = false) :
    ∀ acc, isUnknownKeyErr (collate_keys dataList ks acc) = true := by
  induction ks with
  | nil => obtain ⟨k, hk, -⟩ := hex; simp at hk
  | cons k ks ih =>
    intro acc
    by_cases hrec : recognizedKey k = true
    · have hex' : ∃ k' ∈ ks, recognizedKey k' = false := by
        obtain ⟨k', hk', hfalse⟩ := hex
        rcases List.mem_cons.mp hk' with rfl | hmem
        · rw [hrec] at hfalse; cases hfalse
        · exact ⟨k', hmem, hfalse⟩
      have hall' : ∀ k' ∈ ks, recognizedKey k' = true → ∀ s ∈ dataList, k' ∈ keysOf s :=
        fun k' hk' => hall k' (by simp [hk'])
      have hfeats' : "pointcloud_lidar_coords" ∈ ks →
          ∀ s ∈ dataList, "pointcloud_lidar_feats" ∈ keysOf s :=
        fun hc => hfeats (by simp [hc])
      rw [collate_keys]
      by_cases h1 : k = "idx"
      · rw [if_pos h1]
        exact ih hall' hfeats' hex' acc
      · rw [if_neg h1]
        by_cases h2 : k = "pose"
        · rw [if_pos h2]
          obtain ⟨vs, hvs⟩ := collectAll_ok dataList "pose"
            fun s hs => h2 ▸ hall k (by simp) hrec s hs
          rw [hvs]
          exact ih hall' hfeats' hex' _
        · rw [if_neg h2]
          by_cases h3 : keyStarts "image_" k = true
          · rw [if_pos h3]
            obtain ⟨vs, hvs⟩ := collectAll_ok dataList k (hall k (by simp) hrec)
            rw [hvs]
            exact ih hall' hfeats' hex' _
          · rw [if_neg h3]
            by_cases h4 : keyStarts "mask_" k = true
            · rw [if_pos h4]
              obtain ⟨vs, hvs⟩ := collectAll_ok dataList k (hall k (by simp) hrec)
              rw [hvs]
              exact ih hall' hfeats' hex' _
            · rw [if_neg h4]
              by_cases h5 : k = "pointcloud_lidar_coords"
              · rw [if_pos h5]
                obtain ⟨cs, hcs⟩ := collectAll_ok dataList "pointcloud_lidar_coords"
                  fun s hs => h5 ▸ hall k (by simp) hrec s hs
                obtain ⟨fs, hfs⟩ := collectAll_ok dataList "pointcloud_lidar_feats"
                  (hfeats (by simp [h5]))
                rw [hcs, hfs]
                exact ih hall' hfeats' hex' _
              · rw [if_neg h5]
                by_cases h6 : k = "pointcloud_lidar_feats"
                · rw [if_pos h6]
                  exact ih hall' hfeats' hex' acc
                · exfalso
                  rw [recognizedKey] at hrec
                  simp [h1, h2, h3, h4, h5, h6] at hrec
    · have hparts := recognizedKey_false_parts (by simpa using hrec)
      obtain ⟨h1, h2, h3, h4, h5, h6⟩ := hparts
      rw [collate_keys, if_neg h1, if_neg h2, if_neg h3, if_neg h4, if_neg h5, if_neg h6]
      rfl

theorem collate_unknown_core (dataList : List (List (String × Val)))
    (first : List (String × Val)) (rest : List (List (String × Val)))
    (hd : dataList = first :: rest)
    (hidx : ∀ s ∈ dataList, "idx" ∈ keysOf s)
    (hkeys : ∀ k ∈ keysOf first, recognizedKey k = true → ∀ s ∈ dataList, k ∈ keysOf s)
    (hfeats : "pointcloud_lidar_coords" ∈ keysOf first →
      ∀ s ∈ dataList, "pointcloud_lidar_feats" ∈ keysOf s)
    (hex : ∃ k ∈ keysOf first, recognizedKey k = false) :
    isUnknownKeyErr (collate_data_dict dataList) = true := by
  subst hd
  rw [collate_data_dict]
  obtain ⟨vs, hvs⟩ := collectAll_ok _ "idx" hidx
  rw [hvs]
  have hck := collate_keys_unknown (first :: rest) (keysOf first) hkeys hfeats hex []
  cases h : collate_keys (first :: rest) (keysOf first) [] with
  | error e =>
    rw [h] at hck
    cases e <;> simp [isUnknownKeyErr, Except.map] at hck ⊢
  | ok r =>
    rw [h] at hck
    simp [isUnknownKeyErr] at hck

/-! ## C7 -/

/-- **C7** (amended): `ITLPCampus._collate_data_dict` raises the
unknown-data-key `ValueError` whenever the FIRST sample of the batch
contains a key outside the recognized set (`idx`, `pose`, `image_*`,
`mask_*`, `pointcloud_lidar_coords`, `pointcloud_lidar_feats`), provided the
keys it visits are present in every sample (otherwise the earlier `KeyError`
fires).  Keys appearing only in LATER samples are never examined: the loop
iterates over `data_list[0].keys()` alone. -/
theorem C7_unknown_key_error (dataList : List (List (String × Val)))
    (first : List (String × Val)) (rest : List (List (String × Val)))
    (hd : dataList = first :: rest)
    (hidx : ∀ s ∈ dataList, "idx" ∈ keysOf s)
    (hkeys : ∀ k ∈ keysOf first, recognizedKey k = true → ∀ s ∈ dataList, k ∈ keysOf s)
    (hfeats : "pointcloud_lidar_coords" ∈ keysOf first →
      ∀ s ∈ dataList, "pointcloud_lidar_feats" ∈ keysOf s)
    (hex : ∃ k ∈ keysOf first, recognizedKey k = false) :
    isUnknownKeyErr (collate_data_dict dataList) = true :=
  collate_unknown_core dataList first rest hd hidx hkeys hfeats hex

/-- Witness for C7: a batch whose first sample has the unrecognized key
`"bogus"` is rejected with the unknown-data-key error. -/
theorem C7_unknown_key_error_witness :
    isUnknownKeyErr (collate_data_dict c7batch) = true :=
  C7_unknown_key_error c7batch [("idx", Val.idx 0), ("bogus", Val.idx 1)] [] rfl
    (by decide) (by decide) (by decide) (by decide)

/-- **C7** fails as stated: in the batch `cex7` the SECOND sample contains
the unrecognized key `"bogus"`, yet collation succeeds — the key is silently
skipped because only the first sample's keys are iterated. -/
theorem C7_counterexample :
    "bogus" ∈ keysOf (cex7.getD 1 []) ∧ recognizedKey "bogus" = false ∧
      collate_data_dict cex7 = Except.ok [("idxs", [Val.idx 0, Val.idx 1])] := by
  refine ⟨by decide, by rfl, by rfl⟩

/-! ## C8 -/

/-- **C8**: requesting the multistage batch split (any
`batch_split_size` other than `None`/`0`) makes
`make_collate_fn.collate_fn` raise `NotImplementedError` for every
well-formed batch (non-empty, every sample carrying `utm` and the keys of
the first sample): no sub-batch result is ever produced. -/
theorem C8_multistage_not_implemented (getPos getNonneg : ℕ → List ℕ) (k : ℤ) (hk : k ≠ 0)
    (dataList : List (List (String × Val))) (first : List (String × Val))
    (rest : List (List (String × Val))) (hd : dataList = first :: rest)
    (hutm : ∀ s ∈ dataList, "utm" ∈ keysOf s)
    (huniform : ∀ k' ∈ keysOf first, ∀ s ∈ dataList, k' ∈ keysOf s) :
    factory_collate getPos getNonneg (some k) dataList =
      Except.error CollateError.notImplemented := by
  subst hd
  have hg : ∃ g, factoryGatherKeys.mapM (optCollect (first :: rest) first) = Except.ok g := by
    apply mapM_ok_of_forall
    intro k' _
    rw [optCollect]
    by_cases hm : k' ∈ keysOf first
    · rw [if_pos hm]
      obtain ⟨vs, hvs⟩ := collectAll_ok (first :: rest) k' (huniform k' hm)
      rw [hvs]
      exact ⟨some vs, rfl⟩
    · rw [if_neg hm]
      exact ⟨none, rfl⟩
  obtain ⟨g, hg⟩ := hg
  obtain ⟨utms, hutms⟩ := collectAll_ok (first :: rest) "utm" hutm
  simp only [factory_collate]
  rw [hg, hutms]
  simp [hk]

/-- Witness for C8: a one-sample batch with split size `2` is rejected. -/
theorem C8_multistage_not_implemented_witness :
    factory_collate (fun _ => []) (fun _ => []) (some 2) c8batch =
      Except.error CollateError.notImplemented :=
  C8_multistage_not_implemented (fun _ => []) (fun _ => []) 2 (by decide) c8batch
    [("utm", Val.pose [])] [] rfl (by decide) (by decide)

/-! ## Sample-key lemmas for `__getitem__` -/

theorem keysOf_append (a b : List (String × Val)) :
    keysOf (a ++ b) = keysOf a ++ keysOf b :=
  List.map_append _ _ _

theorem frontEntries_keys (cfg : ItlpCfg) (d : RawData) :
    keysOf (frontEntries cfg d) = frontKeys cfg := by
  rw [frontEntries, frontKeys]
  split_ifs <;> simp [keysOf]

theorem backEntries_keys (cfg : ItlpCfg) (d : RawData) :
    keysOf (backEntries cfg d) = backKeys cfg := by
  rw [backEntries, backKeys]
  split_ifs <;> simp [keysOf]

theorem lidarEntries_keys (cfg : ItlpCfg) (maxDist : Option ℚ) (d : RawData)
    (les : List (String × Val)) (h : lidarEntries cfg maxDist d = Except.ok les) :
    keysOf les = lidarKeys cfg := by
  rw [lidarEntries] at h
  rw [lidarKeys]
  by_cases hm : "lidar" ∈ cfg.sensors
  · rw [if_pos hm] at h
    rw [if_pos hm]
    cases hpc : lidarPc cfg maxDist d with
    | error e => rw [hpc] at h; cases h
    | ok pc =>
      rw [hpc] at h
      cases h
      simp [keysOf]
  · rw [if_neg hm] at h
    rw [if_neg hm]
    cases h
    simp [keysOf]

theorem getitem_keys (cfg : ItlpCfg) (maxDist : Option ℚ) (d : RawData)
    (s : List (String × Val)) (h : getitem cfg maxDist d = Except.ok s) :
    keysOf s = sample_keys cfg := by
  rw [getitem] at h
  cases hle : lidarEntries cfg maxDist d with
  | error e => rw [hle] at h; cases h
  | ok les =>
    rw [hle] at h
    cases h
    rw [sample_keys, keysOf_append, keysOf_append, keysOf_append,
      frontEntries_keys, backEntries_keys, lidarEntries_keys cfg maxDist d les hle]
    rfl

theorem frontKeys_sub (cfg : ItlpCfg) :
    ∀ k ∈ frontKeys cfg,
      k ∈ ["image_front_cam", "mask_front_cam", "text_labels_front_cam_df",
           "text_description_front_cam_df", "aruco_labels_front_cam_df"] := by
  intro k hk
  rw [frontKeys] at hk
  split_ifs at hk <;> simp at hk ⊢ <;> tauto

theorem backKeys_sub (cfg : ItlpCfg) :
    ∀ k ∈ backKeys cfg,
      k ∈ ["image_back_cam", "mask_back_cam", "text_labels_back_cam_df",
           "text_description_back_cam_df", "aruco_labels_back_cam_df"] := by
  intro k hk
  rw [backKeys] at hk
  split_ifs at hk <;> simp at hk ⊢ <;> tauto

theorem sample_keys_coords (cfg : ItlpCfg)
    (h : "pointcloud_lidar_coords" ∈ sample_keys cfg) :
    "pointcloud_lidar_feats" ∈ sample_keys cfg := by
  rw [sample_keys] at h ⊢
  simp only [List.mem_append] at h ⊢
  rcases h with ((h | h) | h) | h
  · simp at h
  · have := frontKeys_sub cfg _ h
    simp at this
  · have := backKeys_sub cfg _ h
    simp at this
  · right
    rw [lidarKeys] at h ⊢
    split_ifs at h ⊢ with hm
    · simp
    · simp at h

theorem sample_keys_has_df (cfg : ItlpCfg)
    (hflag : cfg.loadTextLabels = true ∨ cfg.loadTextDescriptions = true ∨
      cfg.loadArucoLabels = true)
    (hcam : "front_cam" ∈ cfg.sensors ∨ "back_cam" ∈ cfg.sensors) :
    ∃ k ∈ sample_keys cfg, recognizedKey k = false := by
  rcases hcam with hc | hc
  · rcases hflag with hf | hf | hf
    · exact ⟨"text_labels_front_cam_df", by simp [sample_keys, frontKeys, hc, hf], by rfl⟩
    · exact ⟨"text_description_front_cam_df", by simp [sample_keys, frontKeys, hc, hf], by rfl⟩
    · exact ⟨"aruco_labels_front_cam_df", by simp [sample_keys, frontKeys, hc, hf], by rfl⟩
  · rcases hflag with hf | hf | hf
    · exact ⟨"text_labels_back_cam_df", by simp [sample_keys, backKeys, hc, hf], by rfl⟩
    · exact ⟨"text_description_back_cam_df", by simp [sample_keys, backKeys, hc, hf], by rfl⟩
    · exact ⟨"aruco_labels_back_cam_df", by simp [sample_keys, backKeys, hc, hf], by rfl⟩

/-! ## C10 -/

/-- **C10**: every non-empty batch of samples produced by
`ITLPCampus.__getitem__` with `load_text_labels`, `load_text_descriptions`
or `load_aruco_labels` enabled and a camera sensor selected is rejected by
`ITLPCampus.collate_fn` with the unknown-data-key `ValueError`: the
auxiliary `*_df` entries fall into the unrecognized-key branch of
`_collate_data_dict`, so such datasets can be iterated per index but never
collated into a batch. -/
theorem C10_df_keys_never_collate (cfg : ItlpCfg) (maxDist : Option ℚ)
    (ds : List RawData) (samples : List (List (String × Val)))
    (hmap : ds.mapM (getitem cfg maxDist) = Except.ok samples)
    (hne : samples ≠ [])
    (hflag : cfg.loadTextLabels = true ∨ cfg.loadTextDescriptions = true ∨
      cfg.loadArucoLabels = true)
    (hcam : "front_cam" ∈ cfg.sensors ∨ "back_cam" ∈ cfg.sensors) :
    isUnknownKeyErr (collate_data_dict samples) = true := by
  obtain ⟨first, rest, rfl⟩ : ∃ f r, samples = f :: r := by
    cases samples with
    | nil => exact absurd rfl hne
    | cons f r => exact ⟨f, r, rfl⟩
  have hkeysAll : ∀ s ∈ first :: rest, keysOf s = sample_keys cfg := by
    intro s hs
    obtain ⟨d, -, hd⟩ := mapM_ok_mem (getitem cfg maxDist) ds (first :: rest) hmap s hs
    exact getitem_keys cfg maxDist d s hd
  have hfirst : keysOf first = sample_keys cfg := hkeysAll first (by simp)
  apply collate_unknown_core (first :: rest) first rest rfl
  · intro s hs
    rw [hkeysAll s hs, sample_keys]
    simp
  · intro k hk hrec s hs
    rw [hkeysAll s hs]
    rw [hfirst] at hk
    exact hk
  · intro hc s hs
    rw [hfirst] at hc
    rw [hkeysAll s hs]
    exact sample_keys_coords cfg hc
  · rw [hfirst]
    exact sample_keys_has_df cfg hflag hcam

/-- Witness for C10: the one-sample batch `[c10sample]` produced by
`__getitem__` under `c10cfg` (front camera, text labels on) is rejected. -/
theorem C10_df_keys_never_collate_witness :
    isUnknownKeyErr (collate_data_dict [c10sample]) = true :=
  C10_df_keys_never_collate c10cfg none [rawEmpty] [c10sample] (by rfl) (by simp)
    (Or.inl rfl) (Or.inl (by decide))

/-! ## findVal lemmas for `__getitem__` samples -/

theorem findVal_append (l1 l2 : List (String × Val)) (k : String) :
    findVal (l1 ++ l2) k = (findVal l1 k).or (findVal l2 k) := by
  induction l1 with
  | nil => simp [findVal]
  | cons e l ih =>
    rw [List.cons_append, findVal_cons, findVal_cons]
    by_cases he : e.1 == k
    · simp [he]
    · simp [he, ih]

theorem findVal_not_mem (l : List (String × Val)) (k : String) (h : k ∉ keysOf l) :
    findVal l k = none := by
  induction l with
  | nil => rfl
  | cons e l ih =>
    rw [keysOf, List.map_cons] at h
    rw [findVal_cons, if_neg]
    · exact ih fun hm => h (List.mem_cons.mpr (Or.inr hm))
    · intro hbeq
      exact h (List.mem_cons.mpr (Or.inl (beq_iff_eq.mp hbeq).symm))

theorem findVal_frontEntries_ne (cfg : ItlpCfg) (d : RawData) (k : String)
    (hk : k ∉ ["image_front_cam", "mask_front_cam", "text_labels_front_cam_df",
      "text_description_front_cam_df", "aruco_labels_front_cam_df"]) :
    findVal (frontEntries cfg d) k = none := by
  apply findVal_not_mem
  intro hm
  rw [frontEntries_keys] at hm
  exact hk (frontKeys_sub cfg k hm)

theorem findVal_backEntries_ne (cfg : ItlpCfg) (d : RawData) (k : String)
    (hk : k ∉ ["image_back_cam", "mask_back_cam", "text_labels_back_cam_df",
      "text_description_back_cam_df", "aruco_labels_back_cam_df"]) :
    findVal (backEntries cfg d) k = none := by
  apply findVal_not_mem
  intro hm
  rw [backEntries_keys] at hm
  exact hk (backKeys_sub cfg k hm)

theorem findVal_frontEntries_image (cfg : ItlpCfg) (d : RawData)
    (hf : "front_cam" ∈ cfg.sensors) :
    findVal (frontEntries cfg d) "image_front_cam" =
      some (Val.img (if cfg.loadSemantics && dynFlag cfg
        then blackout_dynamic d.maskFront d.imageFront else d.imageFront)) := by
  rw [frontEntries, if_pos hf]
  simp [findVal_cons]

theorem findVal_backEntries_image (cfg : ItlpCfg) (d : RawData)
    (hb : "back_cam" ∈ cfg.sensors) :
    findVal (backEntries cfg d) "image_back_cam" =
      some (Val.img (if cfg.loadSemantics && dynFlag cfg
        then blackout_dynamic d.maskBack d.imageBack else d.imageBack)) := by
  rw [backEntries, if_pos hb]
  simp [findVal_cons]

/-! ## C9 -/

/-- **C9**: `ITLPCampus.__getitem__` applies dynamic-class exclusion only
when `exclude_dynamic_classes` AND `indoor` are both true.  Whenever either
flag is false — in particular for every outdoor (`indoor = False`) dataset
regardless of `exclude_dynamic_classes` — loading succeeds and the returned
camera images and LiDAR point cloud are exactly the unfiltered
transform/`_load_pc` outputs: no pixel is blacked out and no point is
removed. -/
theorem C9_dynamic_gating (cfg : ItlpCfg) (maxDist : Option ℚ) (d : RawData)
    (h : cfg.excludeDynamic = false ∨ cfg.indoor = false) :
    (∃ s, getitem cfg maxDist d = Except.ok s) ∧
      ("front_cam" ∈ cfg.sensors →
        getitemVal cfg maxDist d "image_front_cam" = some (Val.img d.imageFront)) ∧
      ("back_cam" ∈ cfg.sensors →
        getitemVal cfg maxDist d "image_back_cam" = some (Val.img d.imageBack)) ∧
      ("lidar" ∈ cfg.sensors →
        getitemVal cfg maxDist d "pointcloud_lidar_coords" =
          some (Val.cloud (load_pc d.rawPc maxDist))) := by
  have hdyn : dynFlag cfg = false := by
    rcases h with h | h <;> simp [dynFlag, h]
  have hle : lidarEntries cfg maxDist d =
      Except.ok (if "lidar" ∈ cfg.sensors then
        [("pointcloud_lidar_coords", Val.cloud (load_pc d.rawPc maxDist)),
         ("pointcloud_lidar_feats", Val.feats (load_pc d.rawPc maxDist).length)]
        else []) := by
    rw [lidarEntries]
    by_cases hml : "lidar" ∈ cfg.sensors
    · rw [if_pos hml, if_pos hml]
      simp [lidarPc, hdyn, Except.map]
    · rw [if_neg hml, if_neg hml]
  have hget : getitem cfg maxDist d =
      Except.ok ([("idx", Val.idx d.idx), ("pose", Val.pose d.pose)]
        ++ frontEntries cfg d ++ backEntries cfg d
        ++ (if "lidar" ∈ cfg.sensors then
          [("pointcloud_lidar_coords", Val.cloud (load_pc d.rawPc maxDist)),
           ("pointcloud_lidar_feats", Val.feats (load_pc d.rawPc maxDist).length)]
          else [])) := by
    rw [getitem, hle]
    rfl
  refine ⟨⟨_, hget⟩, ?_, ?_, ?_⟩
  · intro hf
    simp only [getitemVal, hget]
    rw [findVal_append, findVal_append, findVal_append,
      findVal_frontEntries_image cfg d hf, hdyn]
    simp [findVal_cons]
    exact Or.inr rfl
  · intro hb
    simp only [getitemVal, hget]
    rw [findVal_append, findVal_append, findVal_append,
      findVal_backEntries_image cfg d hb, hdyn,
      findVal_frontEntries_ne cfg d "image_back_cam" (by decide)]
    simp [findVal_cons]
    exact Or.inr rfl
  · intro hml
    simp only [getitemVal, hget]
    rw [findVal_append, findVal_append, findVal_append,
      findVal_frontEntries_ne cfg d "pointcloud_lidar_coords" (by decide),
      findVal_backEntries_ne cfg d "pointcloud_lidar_coords" (by decide),
      if_pos hml]
    simp [findVal_cons]
    exact Or.inr rfl

/-- Witness for C9: outdoor configuration `c9cfg` (front camera + lidar,
`exclude_dynamic_classes = True` but `indoor = False`) loads `rawEmpty`
without any dynamic filtering. -/
theorem C9_dynamic_gating_witness :
    getitemVal c9cfg none rawEmpty "image_front_cam" =
        some (Val.img rawEmpty.imageFront) ∧
      getitemVal c9cfg none rawEmpty "pointcloud_lidar_coords" =
        some (Val.cloud (load_pc rawEmpty.rawPc none)) :=
  ⟨(C9_dynamic_gating c9cfg none rawEmpty (Or.inr rfl)).2.1 (by decide),
   (C9_dynamic_gating c9cfg none rawEmpty (Or.inr rfl)).2.2.2 (by decide)⟩

/-! ## C3 -/

/-- **C3** fails on the code (code bug): the validity mask of
`_remove_dynamic_points` checks the projected pixel against the hard-coded
original camera resolution `[0,1280)×[0,720)`, but the semantic image it
then indexes is the `semantic_transform`-resized mask (192×320, see
`mask_resized`).  For the real front-camera calibration
(`lidar2front`/`front_matrix`) the LiDAR point `(10, 0, 0)` projects to
pixel `(u, v) ≈ (628.7, 342.2)`: it passes the validity mask (including
positive camera-frame depth), yet `floor(v) = 342` is out of bounds for the
192-row mask — numpy raises `IndexError` (modelled as `none`) instead of
performing an in-bounds lookup. -/
theorem C3_oob_semantic_lookup :
    project front_matrix (toCamera lidar2front ⟨10, 0, 0⟩) =
        some (780951884239020093517623 / 1242194188750000000000,
              32231709298985595724773 / 94194820000000000000) ∧
      ((0:ℚ) ≤ 780951884239020093517623 / 1242194188750000000000 ∧
        (780951884239020093517623 / 1242194188750000000000 : ℚ) < 1280 ∧
        (0:ℚ) ≤ 32231709298985595724773 / 94194820000000000000 ∧
        (32231709298985595724773 / 94194820000000000000 : ℚ) < 720 ∧
        0 < (toCamera lidar2front ⟨10, 0, 0⟩).z) ∧
      remove_dynamic_points pc3fail mask_resized lidar2front front_matrix = none := by
  set u0 : ℚ := 780951884239020093517623 / 1242194188750000000000 with hu0
  set v0 : ℚ := 32231709298985595724773 / 94194820000000000000 with hv0
  have hproj : project front_matrix (toCamera lidar2front ⟨10, 0, 0⟩) = some (u0, v0) := by
    rw [project, toCamera]
    rw [if_neg]
    · rw [Option.some.injEq, Prod.mk.injEq]
      constructor <;> norm_num [lidar2front, front_matrix, hu0, hv0]
    · norm_num [lidar2front]
  have hz : 0 < (toCamera lidar2front ⟨10, 0, 0⟩).z := by
    rw [toCamera]
    norm_num [lidar2front]
  have hbounds : (0:ℚ) ≤ u0 ∧ u0 < 1280 ∧ (0:ℚ) ≤ v0 ∧ v0 < 720 := by
    refine ⟨?_, ?_, ?_, ?_⟩ <;> norm_num [hu0, hv0]
  have hfv : (192:ℤ) ≤ ⌊v0⌋ := Int.le_floor.mpr (by push_cast; norm_num [hv0])
  have hfv0 : (0:ℤ) ≤ ⌊v0⌋ := le_trans (by norm_num) hfv
  have hfu0 : (0:ℤ) ≤ ⌊u0⌋ := Int.floor_nonneg.mpr hbounds.1
  have hlen : mask_resized.length = 192 := by
    rw [mask_resized, List.length_cons, List.length_replicate]
  have hlook : lookupLabel mask_resized ⌊v0⌋ ⌊u0⌋ = none := by
    rw [lookupLabel, if_pos ⟨hfv0, hfu0⟩, List.get?_eq_none.mpr]
    · rfl
    · rw [hlen]
      exact (Int.le_toNat hfv0).mpr hfv
  have hfate : pointFate mask_resized lidar2front front_matrix ⟨10, 0, 0⟩ = none := by
    simp only [pointFate, hproj]
    rw [if_pos ⟨hbounds.1, hbounds.2.1, hbounds.2.2.1, hbounds.2.2.2, hz⟩, hlook]
  have hdynmap : mapHasDynamic mask_resized = true := by rfl
  refine ⟨hproj, ⟨hbounds.1, hbounds.2.1, hbounds.2.2.1, hbounds.2.2.2, hz⟩, ?_⟩
  rw [remove_dynamic_points, if_pos hdynmap]
  simp [pc3fail, List.mapM.loop, hfate]

end Opr
